import Mathlib

/-!
Verification of the overlay filesystem core of libfuse-fs
(src/project/libfuse-fs/src/overlayfs/{mod.rs, inode_store.rs, layer.rs}).

We shallowly embed the data model and the pure decision logic of the
operations the claims are about: the merge rule that builds an
OverlayInode from an ordered list of backing RealInodes, the probe
helpers that convert missing-entry errors to an absent result, the
copy-up pipeline, the rename whiteout decision, the readdir emission,
the mkdir decision over an existing name, and the InodeStore with its
active/deleted maps, path reservations and nlink counters.

Layer I/O is modelled by explicit oracles and results: a layer call
that can fail is a `Except RawError` value, where `RawError` is the
`raw_os_error` of the `std::io::Error` (`none` when the error carries
no OS code).  File kinds, attributes and errno values are explicit.
-/

namespace Overlay

/-- POSIX errno values used by the overlayfs core. -/
def ENOENT : Int := 2

def EACCES : Int := 13

def EEXIST : Int := 17

def ENOTDIR : Int := 20

def EINVAL : Int := 22

def EROFS : Int := 30

def ENAMETOOLONG : Int := 36

/-- File kinds as distinguished by the overlayfs core (rfuse3 FileType). -/
inductive FileKind where
  | regular
  | directory
  | symlink
  | charDev
  | blockDev
  | fifo
  | socket
deriving DecidableEq

/-- `utils::is_dir` on a file kind. -/
def is_dir (k : FileKind) : Bool :=
  match k with
  | FileKind.directory => true
  | _ => false

/--
`RealInode` (mod.rs:55): one inode object in a specific layer.
The `layer` handle itself is irrelevant to the merge logic; we keep the
layer inode number, the upper flag, the whiteout and opaque markers and
the cached file kind (the part of `stat` the merge rule reads).
-/
structure RealInode where
  inUpperLayer : Bool
  ino : Nat
  whiteout : Bool
  opaq : Bool
  kind : FileKind
deriving DecidableEq

/--
The non-first part of the walk of `new_from_real_inodes`
(mod.rs:574-593): a whiteout stops the walk and is not recorded, a
non-directory is an invalid layout and stops the walk, a valid
directory is appended, and an opaque directory is appended and then
stops the walk.
-/
def mergeLowerWalk : List RealInode → List RealInode
  | [] => []
  | ri :: rest =>
    if ri.whiteout then []
    else if !(is_dir ri.kind) then []
    else if ri.opaq then [ri]
    else ri :: mergeLowerWalk rest

/--
`OverlayInode::new_from_real_inodes` (mod.rs:535-596), restricted to
the list of RealInodes the new node records (upper first).  An empty
input is a bug and fails with EINVAL.  The first element always becomes
the primary; it stops the walk when it is a whiteout, a non-directory
or an opaque directory.  The rest of the walk is `mergeLowerWalk`.
-/
def new_from_real_inodes : List RealInode → Except Int (List RealInode)
  | [] => Except.error EINVAL
  | ri :: rest =>
    if ri.whiteout then Except.ok [ri]
    else if !(is_dir ri.kind) then Except.ok [ri]
    else if ri.opaq then Except.ok [ri]
    else Except.ok (ri :: mergeLowerWalk rest)

/-- A non-first RealInode lets the merge walk continue past it exactly
when it is a non-whiteout, non-opaque directory (claim C7's wording). -/
def mergeKeeps (ri : RealInode) : Bool :=
  !ri.whiteout && is_dir ri.kind && !ri.opaq

/-- Modelled from the claim's words (refinement side of C7): after the
continuing elements, the stopping element is included exactly when it
is an opaque directory that is not a whiteout. -/
def mergeStopInclusion (rest : List RealInode) : List RealInode :=
  match rest.dropWhile mergeKeeps with
  | [] => []
  | s :: _ => if !s.whiteout && is_dir s.kind && s.opaq then [s] else []

/-- Modelled from the claim's words (refinement side of C7): the merge
result is the first element, followed - when the first element is a
non-whiteout, non-opaque directory - by the longest run of continuing
elements plus the stopping opaque directory when there is one; an empty
list is invalid. -/
def mergeResultOfClaim (l : List RealInode) : Except Int (List RealInode) :=
  match l with
  | [] => Except.error EINVAL
  | x :: xs =>
    if x.whiteout || !(is_dir x.kind) || x.opaq then Except.ok [x]
    else Except.ok (x :: (xs.takeWhile mergeKeeps ++ mergeStopInclusion xs))

theorem mergeLowerWalk_eq_takeWhile (xs : List RealInode) :
    mergeLowerWalk xs = xs.takeWhile mergeKeeps ++ mergeStopInclusion xs := by
  induction xs with
  | nil => simp [mergeLowerWalk, mergeStopInclusion]
  | cons x rest ih =>
    cases hw : x.whiteout with
    | true =>
      simp [mergeLowerWalk, hw, mergeStopInclusion, List.takeWhile, List.dropWhile,
        mergeKeeps]
    | false =>
      cases hd : is_dir x.kind with
      | false =>
        simp [mergeLowerWalk, hw, hd, mergeStopInclusion, List.takeWhile,
          List.dropWhile, mergeKeeps]
      | true =>
        cases ho : x.opaq with
        | true =>
          simp [mergeLowerWalk, hw, hd, ho, mergeStopInclusion, List.takeWhile,
            List.dropWhile, mergeKeeps]
        | false =>
          simp [mergeLowerWalk, hw, hd, ho, mergeStopInclusion, List.takeWhile,
            List.dropWhile, mergeKeeps, ih]

/-- Claim C7: for every non-empty ordered list of RealInodes
(upper-first), `new_from_real_inodes` includes exactly the prefix
determined by the merge rule - the first element always becomes the
primary; the walk stops at (and excludes, when non-first) the first
whiteout, stops after the first element when it is not a directory,
excludes any non-first non-directory, and stops after including the
first opaque directory; for an empty list it fails with EINVAL. -/
theorem new_from_real_inodes_merge_rule (l : List RealInode) :
    new_from_real_inodes l = mergeResultOfClaim l := by
  cases l with
  | nil => rfl
  | cons x xs =>
    cases hw : x.whiteout with
    | true => simp [new_from_real_inodes, mergeResultOfClaim, hw]
    | false =>
      cases hd : is_dir x.kind with
      | false => simp [new_from_real_inodes, mergeResultOfClaim, hw, hd]
      | true =>
        cases ho : x.opaq with
        | true => simp [new_from_real_inodes, mergeResultOfClaim, hw, hd, ho]
        | false =>
          simp [new_from_real_inodes, mergeResultOfClaim, hw, hd, ho,
            mergeLowerWalk_eq_takeWhile]

/--
`OverlayInode::add_upper_inode` (mod.rs:853-867): unconditionally push
the new upper RealInode to the front of `real_inodes`; the previous
entries are drained and re-appended unless `clearLowers` is set.
There is no `in_upper_layer` check in this function.
-/
def add_upper_inode (ris : List RealInode) (ri : RealInode) (clearLowers : Bool) :
    List RealInode :=
  if clearLowers then [ri] else ri :: ris

/-- `OverlayInode::in_upper_layer` (mod.rs:870-877): the first
RealInode's upper flag; false for an empty list. -/
def in_upper_layer (ris : List RealInode) : Bool :=
  match ris.head? with
  | some v => v.inUpperLayer
  | none => false

/-- `OverlayInode::upper_layer_only` (mod.rs:879-892): the first
RealInode is upper and it is the only one. -/
def upper_layer_only (ris : List RealInode) : Bool :=
  match ris.head? with
  | some v => if !v.inUpperLayer then false else ris.length == 1
  | none => false

/-- `OverlayInode::stat64` restricted to the file kind: the first
RealInode answers (mod.rs:598-608); an empty list is ENOENT. -/
def overlayKind : List RealInode → Except Int FileKind
  | [] => Except.error ENOENT
  | ri :: _ => Except.ok ri.kind

/-- The upper RealInode produced by a successful layer
`mkdir_helper` / `symlink_helper` / `create_helper` call during
copy-up: upper, not a whiteout, not opaque (mod.rs:787-797, 2118-2128,
2218-2229). -/
def freshUpper (ino : Nat) (kind : FileKind) : RealInode :=
  { inUpperLayer := true, ino := ino, whiteout := false, opaq := false, kind := kind }

/--
`OverlayFs::copy_node_up` (mod.rs:2313-2341) as a sequential state
transformer on the node's `real_inodes` list, with the layer inode of
the newly created upper object supplied as `newIno`.  A node already in
the upper layer is returned unchanged.  Otherwise, by file kind:
a directory goes through `create_upper_dir`, which ends in
`add_upper_inode(ri, false)` (mod.rs:846); a symlink goes through
`copy_symlink_up`, ending in `add_upper_inode(ri, true)` (mod.rs:2136);
a regular file goes through `copy_regfile_up`, ending in
`add_upper_inode(ri, true)` (mod.rs:2288); other kinds fail with
EINVAL.
-/
def copy_node_up (newIno : Nat) (ris : List RealInode) : Except Int (List RealInode) :=
  if in_upper_layer ris then Except.ok ris
  else
    match overlayKind ris with
    | Except.error e => Except.error e
    | Except.ok FileKind.directory =>
        Except.ok (add_upper_inode ris (freshUpper newIno FileKind.directory) false)
    | Except.ok FileKind.symlink =>
        Except.ok (add_upper_inode ris (freshUpper newIno FileKind.symlink) true)
    | Except.ok FileKind.regular =>
        Except.ok (add_upper_inode ris (freshUpper newIno FileKind.regular) true)
    | Except.ok _ => Except.error EINVAL

/-- Number of upper-layer RealInodes recorded in a node. -/
def countUpper (ris : List RealInode) : Nat :=
  (ris.filter fun ri => ri.inUpperLayer).length

/-- A lower-layer regular file RealInode, as produced by scanning a
lower layer. -/
def lowerRegFile : RealInode :=
  { inUpperLayer := false, ino := 3, whiteout := false, opaq := false,
    kind := FileKind.regular }

/-- Claim C4 counterexample: `add_upper_inode` does not check
`in_upper_layer` and is not a no-op on a node whose first RealInode is
already upper - it prepends a second upper RealInode. -/
theorem add_upper_inode_not_a_noop :
    add_upper_inode [freshUpper 7 FileKind.regular] (freshUpper 8 FileKind.regular) false
        ≠ [freshUpper 7 FileKind.regular] ∧
      countUpper (add_upper_inode [freshUpper 7 FileKind.regular]
        (freshUpper 8 FileKind.regular) false) = 2 := by
  constructor
  · decide
  · rfl

/-- Claim C4 (amended): `add_upper_inode` itself performs no
`in_upper_layer` check; idempotence of copy-up is instead provided by
the guard at the entry of `copy_node_up`.  For a node whose non-first
RealInodes are all lower-layer, a successful `copy_node_up` is
idempotent and leaves exactly one upper RealInode, at the front. -/
theorem copy_node_up_idempotent (n : Nat) (ris out : List RealInode)
    (hLower : ∀ ri ∈ ris.drop 1, ri.inUpperLayer = false)
    (hRun : copy_node_up n ris = Except.ok out) :
    copy_node_up n out = Except.ok out ∧ countUpper out = 1 ∧
      in_upper_layer out = true := by
  cases ris with
  | nil => simp [copy_node_up, in_upper_layer, overlayKind] at hRun
  | cons x rest =>
    have hTail : ∀ ri ∈ rest, ri.inUpperLayer = false := by
      intro ri hri
      exact hLower ri (by simpa using hri)
    cases hx : x.inUpperLayer with
    | true =>
      have hout : out = x :: rest := by
        simp [copy_node_up, in_upper_layer, hx] at hRun
        exact hRun.symm
      subst hout
      refine ⟨by simp [copy_node_up, in_upper_layer, hx], ?_, by simp [in_upper_layer, hx]⟩
      have : rest.filter (fun ri => ri.inUpperLayer) = [] := by
        apply List.filter_eq_nil_iff.mpr
        intro ri hri
        simp [hTail ri hri]
      simp [countUpper, hx, this]
    | false =>
      have hAllLower : ∀ ri ∈ x :: rest, ri.inUpperLayer = false := by
        intro ri hri
        rcases List.mem_cons.mp hri with h | h
        · subst h; exact hx
        · exact hTail ri h
      have hfilter : (x :: rest).filter (fun ri => ri.inUpperLayer) = [] := by
        apply List.filter_eq_nil_iff.mpr
        intro ri hri
        simp [hAllLower ri hri]
      cases hk : x.kind with
      | directory =>
        have hout : out = freshUpper n FileKind.directory :: x :: rest := by
          simp [copy_node_up, in_upper_layer, hx, overlayKind, hk, add_upper_inode] at hRun
          exact hRun.symm
        subst hout
        refine ⟨by simp [copy_node_up, in_upper_layer, freshUpper], ?_,
          by simp [in_upper_layer, freshUpper]⟩
        simp [countUpper, freshUpper, hfilter]
      | symlink =>
        have hout : out = [freshUpper n FileKind.symlink] := by
          simp [copy_node_up, in_upper_layer, hx, overlayKind, hk, add_upper_inode] at hRun
          exact hRun.symm
        subst hout
        exact ⟨by simp [copy_node_up, in_upper_layer, freshUpper], rfl, rfl⟩
      | regular =>
        have hout : out = [freshUpper n FileKind.regular] := by
          simp [copy_node_up, in_upper_layer, hx, overlayKind, hk, add_upper_inode] at hRun
          exact hRun.symm
        subst hout
        exact ⟨by simp [copy_node_up, in_upper_layer, freshUpper], rfl, rfl⟩
      | charDev => simp [copy_node_up, in_upper_layer, hx, overlayKind, hk] at hRun
      | blockDev => simp [copy_node_up, in_upper_layer, hx, overlayKind, hk] at hRun
      | fifo => simp [copy_node_up, in_upper_layer, hx, overlayKind, hk] at hRun
      | socket => simp [copy_node_up, in_upper_layer, hx, overlayKind, hk] at hRun

/-- Witness for C4's amended theorem at a concrete lower-only regular
file. -/
theorem copy_node_up_idempotent_witness :
    copy_node_up 9 [lowerRegFile] = Except.ok [freshUpper 9 FileKind.regular] ∧
      (copy_node_up 9 [freshUpper 9 FileKind.regular]
          = Except.ok [freshUpper 9 FileKind.regular] ∧
        countUpper [freshUpper 9 FileKind.regular] = 1 ∧
        in_upper_layer [freshUpper 9 FileKind.regular] = true) :=
  ⟨rfl, copy_node_up_idempotent 9 [lowerRegFile] [freshUpper 9 FileKind.regular]
    (by decide) rfl⟩

/-- A node has some lower-layer representation when any of its
RealInodes is not in the upper layer. -/
def hasLowerRepresentation (ris : List RealInode) : Bool :=
  ris.any fun ri => !ri.inUpperLayer

/--
The whiteout decision of `OverlayFs::do_rename` (mod.rs:1832-1868):
the source node is copied up first, and only afterwards is
`need_whiteout = !s_node.upper_layer_only()` computed; the whiteout at
the old location is created exactly when `need_whiteout` holds.
-/
def rename_need_whiteout (newIno : Nat) (src : List RealInode) : Except Int Bool :=
  match copy_node_up newIno src with
  | Except.error e => Except.error e
  | Except.ok s => Except.ok (!(upper_layer_only s))

/-- Claim C1, evaluated at the failing input: a lower-only regular
file has lower representation before the rename, yet `do_rename`
creates no whiteout at the old location, because `copy_regfile_up`
replaced all lower RealInodes (`add_upper_inode(ri, true)`) before
`upper_layer_only` was consulted. -/
theorem rename_lower_regfile_no_whiteout :
    hasLowerRepresentation [lowerRegFile] = true ∧
      rename_need_whiteout 9 [lowerRegFile] = Except.ok false := by
  constructor
  · rfl
  · rfl

/-- A directory entry of a loaded OverlayInode: its name, whiteout
flag and overlay inode number. -/
structure DirChild where
  name : String
  whiteout : Bool
  ino : Nat
deriving DecidableEq

/-- The full listing both readdir variants build before applying the
offset (mod.rs:1349-1366, 1424-1441): "." (self), ".." (parent, or
root/self when there is no parent), then all non-whiteout children. -/
def readdir_entries (selfIno parentIno : Nat) (children : List DirChild) :
    List (String × Nat) :=
  (".", selfIno) :: ("..", parentIno) ::
    (children.filter fun c => !c.whiteout).map fun c => (c.name, c.ino)

/-- `OverlayFs::do_readdir` (mod.rs:1324-1386): when the offset reaches
the number of entries the result is empty; otherwise the loop pushes
every entry - the index is never compared with the offset. -/
def do_readdir (selfIno parentIno : Nat) (children : List DirChild) (offset : Nat) :
    List (String × Nat) :=
  let cs := readdir_entries selfIno parentIno children
  if cs.length ≤ offset then []
  else (cs.enum.filter fun _ => true).map fun p => p.2

/-- `OverlayFs::do_readdirplus` (mod.rs:1389-1469): same listing, but
the loop pushes an entry only when its index is at least the offset. -/
def do_readdirplus (selfIno parentIno : Nat) (children : List DirChild) (offset : Nat) :
    List (String × Nat) :=
  let cs := readdir_entries selfIno parentIno children
  if cs.length ≤ offset then []
  else (cs.enum.filter fun p => offset ≤ p.1).map fun p => p.2

/-- Claim C2, evaluated at the failing input: for a directory with one
child and offset 1, `do_readdirplus` skips exactly the first entry but
`do_readdir` emits the full listing with nothing skipped. -/
theorem do_readdir_ignores_offset :
    do_readdirplus 1 1 [{ name := "a", whiteout := false, ino := 5 }] 1
        = [("..", 1), ("a", 5)] ∧
      do_readdir 1 1 [{ name := "a", whiteout := false, ino := 5 }] 1
        = [(".", 1), ("..", 1), ("a", 5)] := by
  constructor
  · rfl
  · rfl

/-- The `raw_os_error` of a failed layer call: `some code` when the
error wraps an OS errno, `none` for a custom error. -/
abbrev RawError := Option Int

/-- File attributes as the probe and copy-up logic reads them. -/
structure FileAttrM where
  kind : FileKind
  perm : Nat
  uid : Nat
  gid : Nat
deriving DecidableEq

/--
`RealInode::stat64_ignore_enoent` (mod.rs:170-183), applied to the
outcome of the underlying `stat64` call.  The translation keeps the
source's condition verbatim: on an error with an OS code the code
tests `raw_error != ENOENT || raw_error != ENAMETOOLONG` and returns
`Ok(None)` when it holds, `Err(e)` otherwise; an error without an OS
code propagates.
-/
def stat64_ignore_enoent (statResult : Except RawError FileAttrM) :
    Except RawError (Option FileAttrM) :=
  match statResult with
  | Except.ok v => Except.ok (some v)
  | Except.error e =>
    match e with
    | some rawError =>
      if rawError ≠ ENOENT ∨ rawError ≠ ENAMETOOLONG then Except.ok none
      else Except.error (some rawError)
    | none => Except.error none

/-- A layer `lookup` reply: the child's layer inode number (0 denotes
a negative entry), kind and device numbers. -/
structure LayerEntry where
  ino : Nat
  kind : FileKind
  rdevMajor : Nat
  rdevMinor : Nat
deriving DecidableEq

/--
`RealInode::lookup_child_ignore_enoent` (mod.rs:186-212), applied to
the outcome of the layer `lookup` call: a reply with inode 0 is a
negative entry and becomes absent; an error whose OS code is ENOENT or
ENAMETOOLONG becomes absent; every other error propagates.
-/
def lookup_child_ignore_enoent (lookupResult : Except RawError LayerEntry) :
    Except RawError (Option LayerEntry) :=
  match lookupResult with
  | Except.ok v => if v.ino == 0 then Except.ok none else Except.ok (some v)
  | Except.error e =>
    match e with
    | some rawError =>
      if rawError == ENOENT || rawError == ENAMETOOLONG then Except.ok none
      else Except.error (some rawError)
    | none => Except.error none

/-- Claim C5, evaluated at the failing input: a layer error with OS
code EACCES (neither NotFound nor NameTooLong) should propagate
unchanged from both probe helpers, but `stat64_ignore_enoent` converts
it to the absent result `Ok(None)` - its error test
`raw_error != ENOENT || raw_error != ENAMETOOLONG` holds for every
code - while the sibling `lookup_child_ignore_enoent` propagates it. -/
theorem stat64_ignore_enoent_swallows_eacces :
    stat64_ignore_enoent (Except.error (some EACCES)) = Except.ok none ∧
      lookup_child_ignore_enoent (Except.error (some EACCES))
        = Except.error (some EACCES) := by
  constructor
  · rfl
  · rfl

/-- `layer::is_whiteout` (layer.rs:251-257): a character device with
0/0 device numbers. -/
def is_whiteout_attr (e : LayerEntry) : Bool :=
  (match e.kind with | FileKind.charDev => true | _ => false)
    && e.rdevMajor == 0 && e.rdevMinor == 0

/--
`RealInode::lookup_child` (mod.rs:216-246): on a whiteouted self the
child is absent; otherwise the layer lookup result is wrapped into a
RealInode of the same layer.  The source computes the new whiteout and
opaque flags as `if kind == Directory { (false, false) } else
{ (false, false) }` - both branches false - which the translation
keeps verbatim.
-/
def lookup_child (selfRi : RealInode) (lookupResult : Except RawError LayerEntry) :
    Except RawError (Option RealInode) :=
  if selfRi.whiteout then Except.ok none
  else
    match lookup_child_ignore_enoent lookupResult with
    | Except.error e => Except.error e
    | Except.ok none => Except.ok none
    | Except.ok (some v) =>
      let flags := if is_dir v.kind then (false, false) else (false, false)
      Except.ok (some { inUpperLayer := selfRi.inUpperLayer, ino := v.ino,
                        whiteout := flags.1, opaq := flags.2, kind := v.kind })

/-- Claim C10: every child RealInode constructed by `lookup_child` has
`whiteout = false` and `opaque = false`, whatever the underlying layer
entry's attributes are - in particular a 0/0 character-device whiteout
or an on-disk opaque directory found by a directory scan is not
flagged. -/
theorem lookup_child_never_flags (selfRi : RealInode)
    (lookupResult : Except RawError LayerEntry) (ri : RealInode)
    (h : lookup_child selfRi lookupResult = Except.ok (some ri)) :
    ri.whiteout = false ∧ ri.opaq = false := by
  unfold lookup_child at h
  by_cases hw : selfRi.whiteout = true
  · simp [hw] at h
  · simp [Bool.not_eq_true] at hw
    simp [hw] at h
    cases hres : lookup_child_ignore_enoent lookupResult with
    | error e => rw [hres] at h; cases h
    | ok v =>
      cases v with
      | none => rw [hres] at h; cases h
      | some entry =>
        rw [hres] at h
        simp at h
        rw [← h]
        exact ⟨rfl, rfl⟩

/-- A 0/0 character device entry: the on-disk representation of a
whiteout. -/
def whiteoutEntry : LayerEntry :=
  { ino := 5, kind := FileKind.charDev, rdevMajor := 0, rdevMinor := 0 }

/-- A lower-layer directory RealInode used as the scanning parent. -/
def lowerDirRi : RealInode :=
  { inUpperLayer := false, ino := 2, whiteout := false, opaq := false,
    kind := FileKind.directory }

/-- The RealInode `lookup_child` builds for the scanned on-disk
whiteout: a plain char device with both flags cleared. -/
def scannedWhiteoutRi : RealInode :=
  { inUpperLayer := false, ino := 5, whiteout := false, opaq := false,
    kind := FileKind.charDev }

/-- Witness for C10: looking up an on-disk whiteout (0/0 char device)
produces a RealInode that is nevertheless not flagged. -/
theorem lookup_child_never_flags_witness :
    is_whiteout_attr whiteoutEntry = true ∧
      lookup_child lowerDirRi (Except.ok whiteoutEntry)
        = Except.ok (some scannedWhiteoutRi) ∧
      scannedWhiteoutRi.whiteout = false ∧ scannedWhiteoutRi.opaq = false :=
  ⟨rfl, rfl, lookup_child_never_flags lowerDirRi (Except.ok whiteoutEntry)
    scannedWhiteoutRi rfl⟩

/-- The state of an existing node with the same name that `do_mkdir`
finds in the parent: its whiteout flag, whether its first RealInode is
in the upper layer, and whether it is upper-layer-only. -/
structure ExistingNode where
  whiteout : Bool
  inUpper : Bool
  upperOnly : Bool
deriving DecidableEq

/-- What `do_mkdir` does besides creating the upper directory. -/
structure MkdirEffect where
  deleteWhiteout : Bool
  setOpaque : Bool
deriving DecidableEq

/--
The decision logic of `OverlayFs::do_mkdir` (mod.rs:1471-1555): fail
with EROFS when there is no upper layer and with ENOENT when the
parent is whiteouted.  When a node with the same name exists it must
be a whiteout, otherwise mkdir fails with EEXIST; over a whiteout, the
upper whiteout file is deleted when the node is in the upper layer,
and the new upper directory is made opaque when the whiteout node is
not upper-layer-only (i.e. has lower layers).
-/
def do_mkdir_decision (upperExists parentWhiteout : Bool)
    (existing : Option ExistingNode) : Except Int MkdirEffect :=
  if !upperExists then Except.error EROFS
  else if parentWhiteout then Except.error ENOENT
  else
    match existing with
    | none => Except.ok { deleteWhiteout := false, setOpaque := false }
    | some n =>
      if !n.whiteout then Except.error EEXIST
      else Except.ok { deleteWhiteout := n.inUpper, setOpaque := !n.upperOnly }

/-- Claim C6 counterexample: a name that exists in the merged view
only via lower layers (a visible lower directory such as /d with lower
children, empty upper) is not a whiteout, so `do_mkdir` fails with
EEXIST instead of succeeding and marking the upper directory opaque. -/
theorem do_mkdir_over_lower_dir_eexist :
    do_mkdir_decision true false
        (some { whiteout := false, inUpper := false, upperOnly := false })
      = Except.error EEXIST := by
  rfl

/-- Claim C6 (amended): mkdir over a name that is visible in the
merged view (not a whiteout) fails with EEXIST; the opaque-marking
behaviour applies to mkdir over a whiteout: then mkdir succeeds,
deletes the upper whiteout exactly when the whiteout node is in the
upper layer, and sets the new upper directory opaque exactly when the
whiteout node has lower representation (is not upper-layer-only). -/
theorem do_mkdir_decision_rule (n : ExistingNode) :
    (n.whiteout = false →
      do_mkdir_decision true false (some n) = Except.error EEXIST) ∧
    (n.whiteout = true →
      do_mkdir_decision true false (some n)
        = Except.ok { deleteWhiteout := n.inUpper, setOpaque := !n.upperOnly }) := by
  constructor
  · intro h
    simp [do_mkdir_decision, h]
  · intro h
    simp [do_mkdir_decision, h]

/-- Witness for C6's amended theorem at concrete existing nodes. -/
theorem do_mkdir_decision_rule_witness :
    do_mkdir_decision true false
        (some { whiteout := false, inUpper := false, upperOnly := false })
      = Except.error EEXIST ∧
    do_mkdir_decision true false
        (some { whiteout := true, inUpper := true, upperOnly := false })
      = Except.ok { deleteWhiteout := true, setOpaque := true } :=
  ⟨(do_mkdir_decision_rule { whiteout := false, inUpper := false, upperOnly := false }).1
      rfl,
    (do_mkdir_decision_rule { whiteout := true, inUpper := true, upperOnly := false }).2
      rfl⟩

/-- A layer as the copy-up pipeline sees it: `getattr` is the
ID-mapped attribute view, `getattr_helper` the raw unmapped host view
(layer.rs:136-140). -/
structure LayerModel where
  getattr : Nat → Except Int FileAttrM
  getattr_hlp : Nat → Except Int FileAttrM

/-- rfuse3's `mode_from_kind_and_perm`: the file-type bits of the kind
combined with the permission bits. -/
def mode_from_kind_and_perm (kind : FileKind) (perm : Nat) : Nat :=
  Nat.lor
    (match kind with
     | FileKind.regular => 0o100000
     | FileKind.directory => 0o40000
     | FileKind.symlink => 0o120000
     | FileKind.charDev => 0o20000
     | FileKind.blockDev => 0o60000
     | FileKind.fifo => 0o10000
     | FileKind.socket => 0o140000)
    perm

/-- O_WRONLY, the open flags `copy_regfile_up` creates the upper file
with (mod.rs:2186). -/
def O_WRONLY : Nat := 1

/-- The arguments `copy_regfile_up` passes to the upper layer's
`create_helper` (mod.rs:2205-2216). -/
structure CreateHelperCall where
  parentIno : Nat
  mode : Nat
  flags : Nat
  uid : Nat
  gid : Nat
deriving DecidableEq

/--
The creation step of `OverlayFs::copy_regfile_up` (mod.rs:2148-2240):
a node already in the upper layer is left alone (no create call);
otherwise the source layer and inode are taken from
`first_layer_inode()`, the raw host attributes are fetched with
`getattr_helper`, and the upper file is created via `create_helper`
with `mode_from_kind_and_perm(st.kind, st.perm)`, O_WRONLY, and the
source's uid and gid.  An empty `real_inodes` list would panic in
`first_layer_inode` ("BUG: dangling OverlayInode"); we model the panic
as EINVAL.
-/
def copy_regfile_up_create_call (srcLayer : LayerModel) (node : List RealInode)
    (parentUpperIno : Nat) : Except Int (Option CreateHelperCall) :=
  if in_upper_layer node then Except.ok none
  else
    match node.head? with
    | none => Except.error EINVAL
    | some first =>
      match srcLayer.getattr_hlp first.ino with
      | Except.error e => Except.error e
      | Except.ok st =>
        Except.ok (some { parentIno := parentUpperIno,
                          mode := mode_from_kind_and_perm st.kind st.perm,
                          flags := O_WRONLY, uid := st.uid, gid := st.gid })

/-- Claim C8: for every regular file copied up from a lower layer, the
upper file is created with the mode, uid and gid obtained from the
source layer's `getattr_helper` (the raw, unmapped host attributes),
passed to `create_helper` - regardless of what the ID-mapped `getattr`
view reports. -/
theorem copy_regfile_up_uses_raw_attrs (srcLayer : LayerModel)
    (node : List RealInode) (parentUpperIno : Nat) (first : RealInode)
    (st : FileAttrM) (call : CreateHelperCall)
    (hHead : node.head? = some first)
    (hRaw : srcLayer.getattr_hlp first.ino = Except.ok st)
    (hRun : copy_regfile_up_create_call srcLayer node parentUpperIno
      = Except.ok (some call)) :
    call.mode = mode_from_kind_and_perm st.kind st.perm ∧
      call.uid = st.uid ∧ call.gid = st.gid ∧ call.flags = O_WRONLY ∧
      call.parentIno = parentUpperIno := by
  unfold copy_regfile_up_create_call at hRun
  by_cases hu : in_upper_layer node = true
  · simp [hu] at hRun
  · simp [Bool.not_eq_true] at hu
    rw [hu] at hRun
    simp [hHead, hRaw] at hRun
    rw [← hRun]
    exact ⟨rfl, rfl, rfl, rfl, rfl⟩

/-- The raw host attributes of the witness source file: uid/gid 1000,
mode 0o644 regular. -/
def rawAttr : FileAttrM :=
  { kind := FileKind.regular, perm := 0o644, uid := 1000, gid := 1000 }

/-- The ID-mapped view of the same file maps the ids to 0. -/
def mappedAttr : FileAttrM :=
  { kind := FileKind.regular, perm := 0o644, uid := 0, gid := 0 }

/-- A witness layer whose mapped and raw views disagree on uid/gid. -/
def witnessLayer : LayerModel :=
  { getattr := fun _ => Except.ok mappedAttr,
    getattr_hlp := fun _ => Except.ok rawAttr }

/-- The create_helper call the witness copy-up produces. -/
def witnessCreateCall : CreateHelperCall :=
  { parentIno := 12, mode := mode_from_kind_and_perm FileKind.regular 0o644,
    flags := O_WRONLY, uid := 1000, gid := 1000 }

/-- Witness for C8: copying up a lower-only regular file through a
layer whose mapped view reports uid/gid 0 still creates the upper file
with the raw uid/gid 1000 and the raw mode. -/
theorem copy_regfile_up_uses_raw_attrs_witness :
    copy_regfile_up_create_call witnessLayer [lowerRegFile] 12
        = Except.ok (some witnessCreateCall) ∧
      witnessCreateCall.uid = rawAttr.uid ∧ witnessCreateCall.gid = rawAttr.gid :=
  ⟨rfl, (copy_regfile_up_uses_raw_attrs witnessLayer [lowerRegFile] 12 lowerRegFile
    rawAttr witnessCreateCall rfl rfl rfl).2.1,
   (copy_regfile_up_uses_raw_attrs witnessLayer [lowerRegFile] 12 lowerRegFile
    rawAttr witnessCreateCall rfl rfl rfl).2.2.1⟩

/-- Association-list lookup: the model of `HashMap::get` /
`Trie::get`. -/
def alookup {α β : Type} [DecidableEq α] : List (α × β) → α → Option β
  | [], _ => none
  | (k, v) :: rest, key => if k = key then some v else alookup rest key

/-- `HashMap::contains_key` on the association-list model. -/
def acontains {α β : Type} [DecidableEq α] (l : List (α × β)) (key : α) : Bool :=
  (alookup l key).isSome

/-- Association-list insert with overwrite: the model of
`HashMap::insert` / `Trie::insert`. -/
def ainsert {α β : Type} [DecidableEq α] : List (α × β) → α → β → List (α × β)
  | [], key, v => [(key, v)]
  | (k, w) :: rest, key, v =>
    if k = key then (key, v) :: rest else (k, w) :: ainsert rest key v

/-- Association-list removal: the model of `HashMap::remove` /
`Trie::remove`. -/
def aremove {α β : Type} [DecidableEq α] : List (α × β) → α → List (α × β)
  | [], _ => []
  | (k, w) :: rest, key => if k = key then rest else (k, w) :: aremove rest key

/-- The per-node data the InodeStore reads: the node's path (as read
under `path.read()`) and its FUSE lookup count. -/
structure StoreNode where
  path : String
  lookups : Nat
deriving DecidableEq

/--
`InodeStore` (inode_store.rs:19-30): active inodes, deleted inodes
(unlinked but with nonzero lookup count), the path-to-inode
reservation trie, the allocation cursor and ceiling, and the nlink
counters.
-/
structure InodeStore where
  inodes : List (Nat × StoreNode)
  deleted : List (Nat × StoreNode)
  path_mapping : List (String × Nat)
  next_inode : Nat
  inode_limit : Nat
  nlinks : List (Nat × Nat)
deriving DecidableEq

/-- `InodeStore::new` (inode_store.rs:33-42), with the ceiling
(`VFS_MAX_INO`, defined outside this crate's overlayfs module) taken
as a parameter. -/
def store_new (limit : Nat) : InodeStore :=
  { inodes := [], deleted := [], path_mapping := [], next_inode := 1,
    inode_limit := limit, nlinks := [] }

/-- Nlink counters are u64; `fetch_sub(1)` wraps modulo 2^64. -/
def U64MOD : Nat := 18446744073709551616

/-- The probe loop of `InodeStore::alloc_unique_inode`
(inode_store.rs:44-62): up to `inode_limit` iterations, wrapping the
candidate back to 1 past the ceiling, skipping any ino present in the
active or the deleted map; `none` models the "maximum inode number
reached" error. -/
def allocUniqueGo (s : InodeStore) : Nat → Nat → Option (Nat × InodeStore)
  | 0, _ => none
  | Nat.succ fuel, ino =>
    let ino2 := if s.inode_limit < ino then 1 else ino
    if acontains s.inodes ino2 = false ∧ acontains s.deleted ino2 = false then
      some (ino2, { s with next_inode := ino2 + 1 })
    else allocUniqueGo s fuel (ino2 + 1)

/-- `InodeStore::alloc_unique_inode` (inode_store.rs:44-62). -/
def alloc_unique_inode (s : InodeStore) : Option (Nat × InodeStore) :=
  allocUniqueGo s s.inode_limit s.next_inode

/-- `InodeStore::alloc_inode` (inode_store.rs:64-71): the reserved ino
when the path is in the mapping, a fresh unique ino otherwise. -/
def alloc_inode (s : InodeStore) (path : String) : Option (Nat × InodeStore) :=
  match alookup s.path_mapping path with
  | some v => some (v, s)
  | none => alloc_unique_inode s

/-- `InodeStore::insert_inode` (inode_store.rs:73-81): reserve
path-to-ino, bump nlink (starting from 0), and insert into the active
map unless the key already exists.  The deleted map is not consulted. -/
def insert_inode (s : InodeStore) (ino : Nat) (node : StoreNode) : InodeStore :=
  let pm := ainsert s.path_mapping node.path ino
  let oldN := match alookup s.nlinks ino with | some n => n | none => 0
  let nl := ainsert s.nlinks ino ((oldN + 1) % U64MOD)
  let ins := if acontains s.inodes ino then s.inodes else ainsert s.inodes ino node
  { s with path_mapping := pm, nlinks := nl, inodes := ins }

/--
`InodeStore::remove_inode` (inode_store.rs:92-120): missing nlink
entry leaves the store untouched and returns nothing.  Otherwise the
nlink is decremented (wrapping, u64 `fetch_sub`), the path reservation
is removed whenever a path is supplied, and only when the old nlink
was exactly 1 is the node pulled from the active map: with a positive
lookup count it is parked in the deleted map (returning nothing), with
zero lookups it is permanently removed and returned.
-/
def remove_inode (s : InodeStore) (ino : Nat) (pathRemoved : Option String) :
    Option StoreNode × InodeStore :=
  match alookup s.nlinks ino with
  | none => (none, s)
  | some oldNlink =>
    let s1 := { s with nlinks := ainsert s.nlinks ino ((oldNlink + (U64MOD - 1)) % U64MOD) }
    let s2 := match pathRemoved with
      | some p => { s1 with path_mapping := aremove s1.path_mapping p }
      | none => s1
    if oldNlink = 1 then
      match alookup s2.inodes ino with
      | some nodeData =>
        let s3 := { s2 with inodes := aremove s2.inodes ino }
        if 0 < nodeData.lookups then
          (none, { s3 with deleted := ainsert s3.deleted ino nodeData })
        else
          (some nodeData, { s3 with nlinks := aremove s3.nlinks ino })
      | none => (none, s2)
    else (none, s2)

/--
The create / unlink-while-open / create-again sequence of claim C3 on
a fresh store (ceiling 64): allocate an ino for path "/f", insert the
node with `lk` outstanding lookups, remove it through the unlink path
of `do_rm` (which supplies the path, mod.rs:2471-2472), then allocate
for "/f" again.  Returns the two allocated inos and the intermediate
store after the removal.
-/
def c3_trace (lk : Nat) : Option (Nat × Nat × InodeStore) :=
  match alloc_inode (store_new 64) "/f" with
  | none => none
  | some (k, s1) =>
    let s2 := insert_inode s1 k { path := "/f", lookups := lk }
    let s3 := (remove_inode s2 k (some "/f")).2
    match alloc_inode s3 "/f" with
    | none => none
    | some (k2, _) => some (k, k2, s3)

/-- Claim C3 counterexample: with one outstanding lookup, the first
create reserves ino 1 for "/f", the unlink parks ino 1 in the deleted
map, and the second create returns ino 2, not 1 - the path reservation
was dropped by `remove_inode` as soon as the path was supplied, not
when nlink and lookups reached zero. -/
theorem c3_second_alloc_differs :
    (c3_trace 1).map (fun t => (t.1, t.2.1)) = some (1, 2) ∧
      (c3_trace 1).map (fun t => acontains t.2.2.deleted 1) = some true ∧
      (c3_trace 1).map (fun t => alookup t.2.2.path_mapping "/f") = some none := by
  refine ⟨?_, ?_, ?_⟩ <;> rfl

/-- Claim C3 (amended): the path-to-ino reservation is released as
soon as `remove_inode` is called with the path supplied, even while
the lookup count is positive; the deleted entry keeps its ino blocked,
so the second create returns a fresh ino (2) different from the first
(1), which stays parked in the deleted map. -/
theorem c3_reservation_dropped_on_remove (lk : Nat) (h : 0 < lk) :
    (c3_trace lk).map (fun t => (t.1, t.2.1)) = some (1, 2) ∧
      (c3_trace lk).map (fun t => acontains t.2.2.deleted 1) = some true ∧
      (c3_trace lk).map (fun t => alookup t.2.2.path_mapping "/f") = some none := by
  refine ⟨?_, ?_, ?_⟩ <;>
    simp [c3_trace, store_new, alloc_inode, alloc_unique_inode, allocUniqueGo,
      insert_inode, remove_inode, alookup, ainsert, aremove, acontains, U64MOD, h]

/-- Witness for C3's amended theorem at one outstanding lookup. -/
theorem c3_reservation_dropped_on_remove_witness :
    (c3_trace 1).map (fun t => (t.1, t.2.1)) = some (1, 2) ∧
      (c3_trace 1).map (fun t => acontains t.2.2.deleted 1) = some true ∧
      (c3_trace 1).map (fun t => alookup t.2.2.path_mapping "/f") = some none :=
  c3_reservation_dropped_on_remove 1 (by decide)

/--
The InodeStore operations `do_rename` performs on the moved source
node (mod.rs:1846-1863): create the node (as the dispatcher did when
it first appeared), then `remove_inode` with the old path and
`insert_inode` under the new path, both with the node still referenced
(lookup count 1, nlink 1).
-/
def c9_rename_trace : InodeStore :=
  let s1 := insert_inode (store_new 64) 1 { path := "/a", lookups := 1 }
  let s2 := (remove_inode s1 1 (some "/a")).2
  insert_inode s2 1 { path := "/b", lookups := 1 }

/-- Claim C9, evaluated at the failing input: after `do_rename`'s
remove-and-reinsert of a node with nlink 1 and a positive lookup
count, ino 1 is present in the active map and in the deleted map at
the same time - `remove_inode` parked it in `deleted` and
`insert_inode` re-added it to `inodes` without clearing `deleted`. -/
theorem c9_rename_breaks_disjointness :
    acontains c9_rename_trace.inodes 1 = true ∧
      acontains c9_rename_trace.deleted 1 = true := by
  exact ⟨rfl, rfl⟩

end Overlay
